import Mathlib

/-!
Shallow embedding of the JARVIS backend chat relay (src/backend/server.js):
JavaScript value semantics for the JSON bodies, the provider configuration,
the two provider adapters, the rate limiter, and the /api/chat route handler.
-/

set_option maxRecDepth 4000

namespace Jarvis

/-- JavaScript/JSON values as produced by JSON.parse and handled by the server. -/
inductive JsonVal where
  | null : JsonVal
  | bool (b : Bool) : JsonVal
  | num (q : Rat) : JsonVal
  | str (s : String) : JsonVal
  | arr (xs : List JsonVal) : JsonVal
  | obj (fields : List (String × JsonVal)) : JsonVal
deriving Repr

/-- JavaScript truthiness of a defined value. -/
def jsTruthy : JsonVal → Bool
  | .null => false
  | .bool b => b
  | .num q => q != 0
  | .str s => s != ""
  | .arr _ => true
  | .obj _ => true

/-- JavaScript truthiness where none models undefined. -/
def jsTruthyOpt : Option JsonVal → Bool
  | none => false
  | some v => jsTruthy v

/-- Property access v.k: named fields exist only on objects; on every other
value (including JSON arrays) a named property read yields undefined. -/
def jsGetField : JsonVal → String → Option JsonVal
  | .obj fields, k => fields.lookup k
  | _, _ => none

/-- Property access on a possibly-undefined base, after a truthiness guard has
ruled the base defined; undefined base propagates to undefined. -/
def jsGetFieldOpt (v : Option JsonVal) (k : String) : Option JsonVal :=
  v.bind (fun w => jsGetField w k)

/-- Indexed access v[i]: element of an array, string-keyed field of an object,
single character of a string, undefined elsewhere. -/
def jsIndexVal : JsonVal → Nat → Option JsonVal
  | .arr xs, i => xs.get? i
  | .obj fields, i => fields.lookup (toString i)
  | .str s, i => (s.toList.get? i).map (fun c => .str (String.mk [c]))
  | _, _ => none

mutual

/-- String conversion used by template-literal interpolation. -/
def jsToString : JsonVal → String
  | .null => "null"
  | .bool b => if b then "true" else "false"
  | .num q => toString q
  | .str s => s
  | .arr xs => String.intercalate "," (jsToStringList xs)
  | .obj _ => "[object Object]"

/-- String conversions of the elements of an array value. -/
def jsToStringList : List JsonVal → List String
  | [] => []
  | x :: xs => jsToString x :: jsToStringList xs

end

/-- Logical OR a || b over possibly-undefined values: the first operand when
truthy, otherwise the second. -/
def jsOr (a b : Option JsonVal) : Option JsonVal :=
  if jsTruthyOpt a then a else b

/-- Test for Array.isArray. -/
def isJsArray : JsonVal → Bool
  | .arr _ => true
  | _ => false

/-- Capability type of a configured provider (the type field in API_PROVIDERS). -/
inductive ProviderType where
  | openaiCompatible
  | huggingface
deriving DecidableEq, Repr

/-- One entry of the API_PROVIDERS configuration array. The key comes from the
environment and may be absent; the HuggingFace entry has no model and no
maxTokens field. -/
structure Provider where
  name : String
  url : String
  key : Option String
  model : Option String := none
  type : ProviderType
  priority : Nat
  maxTokens : Option Nat := none
  description : String
deriving DecidableEq, Repr

/-- The API_PROVIDERS configuration list, parameterized by the four
environment-supplied credentials. -/
def API_PROVIDERS (groqKey deepseekKey togetherKey huggingfaceKey : Option String) :
    List Provider :=
  [ { name := "Groq-Ultra-Fast",
      url := "https://api.groq.com/openai/v1/chat/completions",
      key := groqKey,
      model := some "mixtral-8x7b-32768",
      type := .openaiCompatible,
      priority := 1,
      maxTokens := some 2000,
      description := "Ultra-fast Mixtral responses" },
    { name := "DeepSeek-Intelligence",
      url := "https://api.deepseek.com/v1/chat/completions",
      key := deepseekKey,
      model := some "deepseek-chat",
      type := .openaiCompatible,
      priority := 2,
      maxTokens := some 2000,
      description := "Advanced reasoning AI" },
    { name := "Together-AI-Llama",
      url := "https://api.together.xyz/v1/chat/completions",
      key := togetherKey,
      model := some "meta-llama/Meta-Llama-3.1-8B-Instruct-Turbo",
      type := .openaiCompatible,
      priority := 3,
      maxTokens := some 2000,
      description := "Latest Llama 3.1 model" },
    { name := "HuggingFace-Backup",
      url := "https://api-inference.huggingface.co/models/microsoft/DialoGPT-large",
      key := huggingfaceKey,
      type := .huggingface,
      priority := 4,
      description := "Reliable HuggingFace backup" } ]

/-- Outcome of one upstream fetch, as observed by the adapters: the HTTP
status, the JSON parse of the body (none when the body is not valid JSON),
and the raw body text. -/
structure HttpResponse where
  status : Nat
  jsonBody : Option JsonVal
  textBody : String := ""
deriving Repr

/-- fetch response.ok: status in the 200..299 range. -/
def HttpResponse.respOk (r : HttpResponse) : Bool :=
  decide (200 ≤ r.status) && decide (r.status ≤ 299)

/-- Behaviour of the network for one request: the body that would be POSTed is
mapped either to an HttpResponse or to a rejected fetch (transport error or
30-second timeout) carrying an error message. -/
def Upstream : Type := Provider → JsonVal → Except String HttpResponse

/-- System prompt prepended by callAIProvider to every outbound conversation. -/
def jarvisSystemPrompt : String :=
  "You are JARVIS (Just A Rather Very Intelligent System), an advanced AI assistant with unlimited knowledge and capabilities.

Guidelines:
- Provide helpful, accurate, and detailed responses
- Be engaging, supportive, and intelligent
- Use clear formatting with **bold** and *italic* when helpful
- No topic restrictions - answer any question asked
- Include examples and real-world applications when relevant
- Be encouraging and positive in your responses

You can discuss any topic without limitations. Provide comprehensive, intelligent responses that demonstrate your advanced capabilities."

/-- The system message object built by callAIProvider. -/
def jarvisSystemMessage : JsonVal :=
  .obj [("role", .str "system"), ("content", .str jarvisSystemPrompt)]

/-- The user message object appended by callAIProvider. -/
def userMessage (message : String) : JsonVal :=
  .obj [("role", .str "user"), ("content", .str message)]

/-- The message list callAIProvider builds for an array-valued history:
the system prompt, then history.slice(-6) (for a list of n elements this is
List.drop (n - 6), which is the whole list when n is at most 6 and the last
six elements otherwise), then the current user message. -/
def outboundMessages (history : List JsonVal) (message : String) : List JsonVal :=
  jarvisSystemMessage :: (history.drop (history.length - 6) ++ [userMessage message])

/-- Request body of callOpenAICompatible. JSON.stringify drops a field whose
value is undefined, so an absent model produces no model key; maxTokens of 0
would be replaced by 2000 by the || default. -/
def openAIRequestBody (p : Provider) (messages : List JsonVal) : JsonVal :=
  .obj ((match p.model with
          | some m => [("model", JsonVal.str m)]
          | none => []) ++
        [("messages", .arr messages),
         ("max_tokens", .num (match p.maxTokens with
                               | some n => if n = 0 then 2000 else (n : Rat)
                               | none => 2000)),
         ("temperature", .num (7/10)),
         ("stream", .bool false)])

/-- Adapter for openai-compatible providers. On a rejected fetch the error
propagates. On a non-ok status it raises the classified API error. On an ok
status it checks data.choices, data.choices[0] and data.choices.message for
truthiness exactly as the source does, then returns
data.choices.message.content. -/
def callOpenAICompatible (p : Provider) (messages : List JsonVal)
    (upstream : JsonVal → Except String HttpResponse) : Except String (Option JsonVal) :=
  match upstream (openAIRequestBody p messages) with
  | .error e => .error e
  | .ok resp =>
    if !resp.respOk then
      let errorText :=
        match resp.jsonBody with
        | some errorData =>
            jsToString ((jsOr (jsGetFieldOpt (jsGetField errorData "error") "message")
              (jsOr (jsGetField errorData "message")
                (some (.str "Unknown error")))).getD .null)
        | none =>
            if resp.textBody = "" then "HTTP " ++ toString resp.status else resp.textBody
      .error (p.name ++ " API error: " ++ errorText)
    else
      match resp.jsonBody with
      | none => .error ("invalid json in response from " ++ p.name)
      | some data =>
        let choices := jsGetField data "choices"
        if !(jsTruthyOpt choices && jsTruthyOpt (choices.bind (fun c => jsIndexVal c 0)) &&
              jsTruthyOpt (jsGetFieldOpt choices "message")) then
          .error ("Invalid response format from " ++ p.name)
        else
          .ok (jsGetFieldOpt (jsGetFieldOpt choices "message") "content")

/-- Request body of callHuggingFace. -/
def hfRequestBody (message : String) : JsonVal :=
  .obj [("inputs", .str message),
        ("parameters", .obj
          [("max_length", .num 500),
           ("temperature", .num (7/10)),
           ("do_sample", .bool true),
           ("return_full_text", .bool false),
           ("repetition_penalty", .num (11/10))])]

/-- Adapter for the huggingface provider. On an ok status it tests, in order:
Array.isArray(data) and data[0] and data.generated_text (note the source reads
generated_text from data itself, not from data[0]); then data.generated_text;
then data.error; otherwise it raises the invalid-format error. -/
def callHuggingFace (_p : Provider) (message : String)
    (upstream : JsonVal → Except String HttpResponse) : Except String (Option JsonVal) :=
  match upstream (hfRequestBody message) with
  | .error e => .error e
  | .ok resp =>
    if !resp.respOk then
      .error ("HuggingFace API error: " ++ resp.textBody)
    else
      match resp.jsonBody with
      | none => .error "invalid json in response from HuggingFace"
      | some data =>
        let generated := jsGetField data "generated_text"
        if isJsArray data && jsTruthyOpt (jsIndexVal data 0) && jsTruthyOpt generated then
          .ok generated
        else if jsTruthyOpt generated then
          .ok generated
        else if jsTruthyOpt (jsGetField data "error") then
          .error ("HuggingFace error: " ++ jsToString ((jsGetField data "error").getD .null))
        else
          .error "Invalid HuggingFace response format"

/-- Dispatch on provider.type inside callAIProvider. -/
def dispatchProvider (upstream : Upstream) (p : Provider) (message : String)
    (messages : List JsonVal) : Except String (Option JsonVal) :=
  match p.type with
  | .openaiCompatible => callOpenAICompatible p messages (upstream p)
  | .huggingface => callHuggingFace p message (upstream p)

/-- Characters of s.slice(-6) as one-character strings: spreading the string
that String.prototype.slice returns yields its characters. -/
def strSlice6 (s : String) : List JsonVal :=
  ((s.drop (s.length - 6)).toList).map (fun c => JsonVal.str (String.mk [c]))

/-- callAIProvider: builds the bounded context from history.slice(-6) and
dispatches on the provider type. A history value with no slice method makes
the attempt throw a TypeError, which the per-provider catch in the route
turns into a failed attempt. -/
def callAIProvider (upstream : Upstream) (p : Provider) (message : String)
    (history : JsonVal) : Except String (Option JsonVal) :=
  match history with
  | .arr xs => dispatchProvider upstream p message (outboundMessages xs message)
  | .str s =>
      dispatchProvider upstream p message
        (jarvisSystemMessage :: (strSlice6 s ++ [userMessage message]))
  | _ => .error "TypeError: history.slice is not a function"

/-- The requestCounts map, read through get(ip) || 0, so an absent entry reads
as 0. The background timer clears the whole map every 60 seconds; the cleared
map is the constant-zero function. -/
def RequestCounts : Type := String → Nat

/-- The empty map: the state at startup and right after each 60-second clear. -/
def emptyCounts : RequestCounts := fun _ => 0

/-- Eligibility filter of the route: credential present and longer than 10
characters. -/
def eligible (p : Provider) : Bool :=
  match p.key with
  | some k => decide (k.length > 10)
  | none => false

/-- Insertion preserving ascending priority: the new provider goes before the
first provider whose priority is at least its own. -/
def insertByPriority (p : Provider) : List Provider → List Provider
  | [] => [p]
  | q :: qs =>
      if p.priority ≤ q.priority then p :: q :: qs else q :: insertByPriority p qs

/-- Stable ascending sort by priority. Array.prototype.sort with comparator
(a, b) => a.priority - b.priority is a stable ascending sort (ECMAScript
2019); a stable sort for a total preorder is uniquely determined, and stable
insertion sort realizes it. -/
def sortByPriority : List Provider → List Provider
  | [] => []
  | p :: ps => insertByPriority p (sortByPriority ps)

/-- sortedProviders of the route: eligible providers in ascending priority
order, configuration order preserved among equal priorities. -/
def sortedProviders (providers : List Provider) : List Provider :=
  sortByPriority (providers.filter eligible)

/-- Length property read: strings and arrays have length; reading length from
any other value gives undefined. -/
def jsLength : JsonVal → Option Nat
  | .str s => some s.length
  | .arr xs => some xs.length
  | _ => none

/-- The success test of the loop, response && response.length > 10: the value
is defined and truthy and its length property exceeds 10 (a comparison with
undefined is false). -/
def goodResponse : Option JsonVal → Bool
  | none => false
  | some v =>
      jsTruthy v && (match jsLength v with
                      | some n => decide (n > 10)
                      | none => false)

/-- provider.model || Unknown fallback used when building the success body. -/
def modelOrUnknown (p : Provider) : String :=
  match p.model with
  | some m => if m = "" then "Unknown" else m
  | none => "Unknown"

/-- The JSON body sent on success by the route. -/
structure ChatSuccess where
  response : JsonVal
  provider : String
  model : String
  timestamp : String
  processingTimeMs : Option Int
deriving Repr

/-- Terminal outcome of one POST /api/chat request. -/
inductive ChatOutcome where
  | rateLimited
  | invalidMessage
  | messageTooLong
  | noProviders
  | success (s : ChatSuccess)
  | allFailed (providersTried : List String)
deriving Repr

/-- HTTP status code of each outcome. -/
def ChatOutcome.httpStatus : ChatOutcome → Nat
  | .rateLimited => 429
  | .invalidMessage => 400
  | .messageTooLong => 400
  | .noProviders => 503
  | .success _ => 200
  | .allFailed _ => 503

/-- JSON body the route serializes for each outcome. Date.now() minus an
undefined startTime is NaN, and JSON.stringify renders NaN as null, which the
none case of processingTimeMs encodes. -/
def ChatOutcome.responseBodyJson : ChatOutcome → JsonVal
  | .rateLimited =>
      .obj [("error", .str "Rate limit exceeded"),
            ("message", .str "Please wait before making more requests")]
  | .invalidMessage =>
      .obj [("error", .str "Message is required"),
            ("message", .str "Please provide a valid message string")]
  | .messageTooLong =>
      .obj [("error", .str "Message too long"),
            ("message", .str "Please keep messages under 10,000 characters")]
  | .noProviders =>
      .obj [("error", .str "No API providers configured"),
            ("message", .str "Server configuration error - please contact administrator")]
  | .success s =>
      .obj [("response", s.response),
            ("provider", .str s.provider),
            ("model", .str s.model),
            ("timestamp", .str s.timestamp),
            ("processing_time_ms", match s.processingTimeMs with
                                    | some t => .num (t : Rat)
                                    | none => .null)]
  | .allFailed tried =>
      .obj [("error", .str "All AI providers are currently unavailable"),
            ("message", .str "Please try again in a moment. If the issue persists, contact support."),
            ("providers_tried", .arr (tried.map (fun n => .str n)))]

/-- The provider loop of the route: try each provider in order inside a
per-provider try/catch; a thrown attempt or a response failing the quality
test continues with the next provider; the first passing response returns the
success body. Also returns the names of the providers actually called, for
observing which upstream calls were made. -/
def tryLoop (call : Provider → Except String (Option JsonVal)) (nowIso : String)
    (now : Int) (startTime : Option Int) :
    List Provider → Option ChatSuccess × List String
  | [] => (none, [])
  | p :: rest =>
    match call p with
    | .ok response =>
      if goodResponse response then
        (some { response := response.getD .null,
                provider := p.name,
                model := modelOrUnknown p,
                timestamp := nowIso,
                processingTimeMs := startTime.map (fun t => now - t) }, [p.name])
      else
        let next := tryLoop call nowIso now startTime rest
        (next.1, p.name :: next.2)
    | .error _ =>
        let next := tryLoop call nowIso now startTime rest
        (next.1, p.name :: next.2)

/-- The history argument passed to the loop: req.body.history when truthy,
otherwise the || [] default. -/
def historyArg (body : JsonVal) : JsonVal :=
  (jsOr (jsGetField body "history") (some (.arr []))).getD .null

/-- The POST /api/chat route handler: rate limiting, validation, provider
selection and the failover loop. Returns the outcome, the updated
requestCounts map, and the names of the providers called. -/
def handleChat (upstream : Upstream) (providers : List Provider)
    (counts : RequestCounts) (ip : String) (body : JsonVal)
    (startTime : Option Int) (now : Int) (nowIso : String) :
    ChatOutcome × RequestCounts × List String :=
  let count := counts ip
  if count > 60 then (.rateLimited, counts, [])
  else
    let counts2 : RequestCounts := fun j => if j = ip then count + 1 else counts j
    match jsGetField body "message" with
    | some (.str m) =>
      if m = "" then (.invalidMessage, counts2, [])
      else if m.length > 10000 then (.messageTooLong, counts2, [])
      else
        let sorted := sortedProviders providers
        if sorted.length = 0 then (.noProviders, counts2, [])
        else
          let result :=
            tryLoop (fun p => callAIProvider upstream p m (historyArg body)) nowIso now startTime sorted
          match result.1 with
          | some s => (.success s, counts2, result.2)
          | none => (.allFailed (sorted.map (fun p => p.name)), counts2, result.2)
    | _ => (.invalidMessage, counts2, [])

/-- The handlers of the express app. -/
inductive Handler where
  | corsMw
  | jsonMw
  | healthRoute
  | chatRoute
  | startTimeMw
  | errorMw
deriving DecidableEq, Repr

/-- Handlers in their registration order in server.js: cors, express.json,
GET /health, POST /api/chat, the startTime-recording middleware, the error
middleware. -/
def appHandlers : List Handler :=
  [.corsMw, .jsonMw, .healthRoute, .chatRoute, .startTimeMw, .errorMw]

/-- Express dispatch of one POST /api/chat request over a handler stack:
handlers run in registration order, routes for other methods or paths are
skipped, plain middleware updates the request and passes control on, and the
chat route sends its response without calling next, so no later handler runs.
The Option Int argument is the current value of req.startTime, initially
unset. -/
def dispatchChat (upstream : Upstream) (providers : List Provider)
    (counts : RequestCounts) (ip : String) (body : JsonVal)
    (now : Int) (nowIso : String) :
    Option Int → List Handler → Option (ChatOutcome × RequestCounts × List String)
  | _, [] => none
  | startTime, h :: rest =>
    match h with
    | .chatRoute =>
        some (handleChat upstream providers counts ip body startTime now nowIso)
    | .startTimeMw =>
        dispatchChat upstream providers counts ip body now nowIso (some now) rest
    | _ =>
        dispatchChat upstream providers counts ip body now nowIso startTime rest

/-- Admission verdict of one outcome: every outcome except the 429 rejection
passed the rate limiter. -/
def chatAdmitted : ChatOutcome → Bool
  | .rateLimited => false
  | _ => true

/-- Final requestCounts map and per-request admission verdicts after n
successive requests from one client within a single window: the map starts
cleared and no 60-second reset happens in between. -/
def chatSeq (upstream : Upstream) (providers : List Provider) (ip : String)
    (body : JsonVal) (startTime : Option Int) (now : Int) (nowIso : String) :
    Nat → RequestCounts × List Bool
  | 0 => (emptyCounts, [])
  | n + 1 =>
    let prev := chatSeq upstream providers ip body startTime now nowIso n
    let r := handleChat upstream providers prev.1 ip body startTime now nowIso
    (r.2.1, prev.2 ++ [chatAdmitted r.1])

/-- Success of one provider attempt as the loop classifies it: the adapter
call returned without throwing and the response passed the quality test. -/
def attemptSucceeds (call : Provider → Except String (Option JsonVal)) (p : Provider) : Bool :=
  match call p with
  | .ok v => goodResponse v
  | .error _ => false

/-- Test separating the string case of the message match from all the
rejected shapes (absent, null, boolean, number, array, object). -/
def isStringMessage : Option JsonVal → Bool
  | some (.str _) => true
  | _ => false

/-- A demonstration credential longer than 10 characters. -/
def demoKey : Option String := some "sk-demo-0123456789"

/-- Configuration with all four credentials set. -/
def demoProviders : List Provider := API_PROVIDERS demoKey demoKey demoKey demoKey

/-- Configuration where only the Groq and DeepSeek credentials are set. -/
def twoProviderConfig : List Provider := API_PROVIDERS demoKey demoKey none none

/-- Configuration where only the HuggingFace credential is set. -/
def hfOnlyConfig : List Provider := API_PROVIDERS none none none demoKey

/-- The priority-1 provider of the configuration. -/
def groqProvider : Provider := demoProviders.get ⟨0, by decide⟩

/-- The priority-2 provider of the configuration. -/
def deepseekProvider : Provider := demoProviders.get ⟨1, by decide⟩

/-- The priority-4 generic-text provider of the configuration. -/
def hfProvider : Provider := hfOnlyConfig.get ⟨3, by decide⟩

/-- The response body of a healthy chat-completion provider in the two-provider
spec scenario. -/
def sampleChoicesBody : JsonVal :=
  .obj [("choices", .arr
    [.obj [("message", .obj [("content", .str "Hello there, how can I help?")])]])]

/-- Network of the two-provider scenario: priority 1 answers HTTP 503 and
priority 2 answers HTTP 200 with the sample choices body. -/
def failoverScenarioNet : Upstream := fun p _ =>
  if p.name = "Groq-Ultra-Fast" then .ok ⟨503, none, "Service Unavailable"⟩
  else .ok ⟨200, some sampleChoicesBody, ""⟩

/-- Network where every request fails at transport level. -/
def downNet : Upstream := fun _ _ => .error "down"

/-- Network where every provider answers HTTP 200 with a bare-object
generated_text body. -/
def hfSuccessNet : Upstream := fun _ _ =>
  .ok ⟨200, some (.obj [("generated_text", .str "All systems operational, sir.")]), ""⟩

/-- Network where the generic-text provider succeeds and every chat-completion
provider answers HTTP 500 with a classified error body. -/
def mixedNet : Upstream := fun p _ =>
  if p.type = ProviderType.huggingface then
    .ok ⟨200, some (.obj [("generated_text", .str "All systems operational, sir.")]), ""⟩
  else
    .ok ⟨500, some (.obj [("error", .obj [("message", .str "boom")])]), ""⟩

/-- Network where every provider answers HTTP 500 with a classified error
body. -/
def allFailNet : Upstream := fun _ _ =>
  .ok ⟨500, some (.obj [("error", .obj [("message", .str "boom")])]), ""⟩

/-- A request body whose message is the single-space string. -/
def spaceBody : JsonVal := .obj [("message", .str " ")]

/-- A request body with a well-formed message and no history. -/
def helloBody : JsonVal := .obj [("message", .str "Hello JARVIS")]

/-- A request body whose message field is a number. -/
def numericBody : JsonVal := .obj [("message", .num 5)]

/-- An adapter-result oracle returning a five-character text for priority 1
and a long text otherwise. -/
def shortCall : Provider → Except String (Option JsonVal) := fun q =>
  if q.priority = 1 then .ok (some (.str "Hello"))
  else .ok (some (.str "This is a long answer."))

/-- Seven distinct caller-supplied conversation turns. -/
def sevenTurns : List JsonVal :=
  [.str "turn1", .str "turn2", .str "turn3", .str "turn4",
   .str "turn5", .str "turn6", .str "turn7"]

theorem mem_insertByPriority {x p : Provider} {l : List Provider} :
    x ∈ insertByPriority p l ↔ x = p ∨ x ∈ l := by
  induction l with
  | nil => simp [insertByPriority]
  | cons q qs ih =>
    by_cases hpq : p.priority ≤ q.priority
    · simp only [insertByPriority, if_pos hpq, List.mem_cons]
    · simp only [insertByPriority, if_neg hpq, List.mem_cons, ih]
      tauto

theorem pairwise_insertByPriority {p : Provider} {l : List Provider}
    (h : l.Pairwise (fun a b => a.priority ≤ b.priority)) :
    (insertByPriority p l).Pairwise (fun a b => a.priority ≤ b.priority) := by
  induction l with
  | nil => simp [insertByPriority]
  | cons q qs ih =>
    rw [List.pairwise_cons] at h
    obtain ⟨hq, hqs⟩ := h
    by_cases hpq : p.priority ≤ q.priority
    · rw [insertByPriority, if_pos hpq, List.pairwise_cons]
      refine ⟨?_, List.pairwise_cons.mpr ⟨hq, hqs⟩⟩
      intro x hx
      rcases List.mem_cons.mp hx with rfl | hx
      · exact hpq
      · exact le_trans hpq (hq x hx)
    · rw [insertByPriority, if_neg hpq, List.pairwise_cons]
      refine ⟨?_, ih hqs⟩
      intro x hx
      rcases mem_insertByPriority.mp hx with rfl | hx
      · omega
      · exact hq x hx

theorem sortByPriority_pairwise (l : List Provider) :
    (sortByPriority l).Pairwise (fun a b => a.priority ≤ b.priority) := by
  induction l with
  | nil => simp [sortByPriority]
  | cons p ps ih => exact pairwise_insertByPriority ih

theorem insertByPriority_perm (p : Provider) (l : List Provider) :
    List.Perm (insertByPriority p l) (p :: l) := by
  induction l with
  | nil => simp [insertByPriority]
  | cons q qs ih =>
    by_cases hpq : p.priority ≤ q.priority
    · simp [insertByPriority, hpq]
    · rw [insertByPriority, if_neg hpq]
      exact (ih.cons q).trans (List.Perm.swap p q qs)

theorem sortByPriority_perm (l : List Provider) :
    List.Perm (sortByPriority l) l := by
  induction l with
  | nil => exact List.Perm.refl _
  | cons p ps ih =>
    exact (insertByPriority_perm p (sortByPriority ps)).trans (ih.cons p)

theorem filter_insertByPriority (p : Provider) (l : List Provider) (v : Nat) :
    (insertByPriority p l).filter (fun q => q.priority == v) =
      (if p.priority = v then [p] else []) ++ l.filter (fun q => q.priority == v) := by
  induction l with
  | nil =>
    by_cases hv : p.priority = v <;> simp [insertByPriority, hv]
  | cons q qs ih =>
    by_cases hpq : p.priority ≤ q.priority
    · rw [insertByPriority, if_pos hpq]
      by_cases hv : p.priority = v <;> simp [List.filter_cons, hv]
    · rw [insertByPriority, if_neg hpq, List.filter_cons, List.filter_cons, ih]
      by_cases hqv : q.priority = v
      · have hpv : ¬ p.priority = v := by omega
        simp [hqv, hpv]
      · simp [hqv]

theorem filter_sortByPriority (l : List Provider) (v : Nat) :
    (sortByPriority l).filter (fun q => q.priority == v) =
      l.filter (fun q => q.priority == v) := by
  induction l with
  | nil => rfl
  | cons p ps ih =>
    rw [sortByPriority, filter_insertByPriority, ih, List.filter_cons]
    by_cases hv : p.priority = v <;> simp [hv]

theorem tryLoop_none_iff {call : Provider → Except String (Option JsonVal)}
    {nowIso : String} {now : Int} {startTime : Option Int} {l : List Provider} :
    (tryLoop call nowIso now startTime l).1 = none ↔
      ∀ p ∈ l, attemptSucceeds call p = false := by
  induction l with
  | nil => simp [tryLoop]
  | cons p rest ih =>
    simp only [tryLoop]
    cases hc : call p with
    | ok v =>
      cases hg : goodResponse v with
      | true => simp [attemptSucceeds, hc, hg]
      | false => simp [attemptSucceeds, hc, hg, ih]
    | error e => simp [attemptSucceeds, hc, ih]

theorem tryLoop_attempted_of_none {call : Provider → Except String (Option JsonVal)}
    {nowIso : String} {now : Int} {startTime : Option Int} {l : List Provider}
    (h : (tryLoop call nowIso now startTime l).1 = none) :
    (tryLoop call nowIso now startTime l).2 = l.map (fun p => p.name) := by
  induction l with
  | nil => simp [tryLoop]
  | cons p rest ih =>
    simp only [tryLoop] at h ⊢
    cases hc : call p with
    | ok v =>
      rw [hc] at h
      cases hg : goodResponse v with
      | true => simp [hg] at h
      | false =>
        simp [hg] at h ⊢
        exact ih h
    | error e =>
      rw [hc] at h
      simp at h ⊢
      exact ih h

theorem tryLoop_some {call : Provider → Except String (Option JsonVal)}
    {nowIso : String} {now : Int} {startTime : Option Int} {l : List Provider}
    {s : ChatSuccess}
    (h : (tryLoop call nowIso now startTime l).1 = some s) :
    ∃ i, ∃ hi : i < l.length,
      attemptSucceeds call (l.get ⟨i, hi⟩) = true ∧
      (∀ j, ∀ hj : j < l.length, j < i → attemptSucceeds call (l.get ⟨j, hj⟩) = false) ∧
      s.provider = (l.get ⟨i, hi⟩).name ∧
      s.model = modelOrUnknown (l.get ⟨i, hi⟩) ∧
      s.processingTimeMs = startTime.map (fun t => now - t) := by
  induction l with
  | nil => simp [tryLoop] at h
  | cons p rest ih =>
    simp only [tryLoop] at h
    cases hc : call p with
    | ok v =>
      rw [hc] at h
      cases hg : goodResponse v with
      | true =>
        simp [hg] at h
        subst h
        refine ⟨0, by simp, ?_, ?_, ?_, ?_, ?_⟩
        · simp [attemptSucceeds, hc, hg]
        · intro j hj hji; omega
        · simp
        · simp
        · simp
      | false =>
        simp [hg] at h
        obtain ⟨i, hi, h1, h2, h3, h4, h5⟩ := ih h
        refine ⟨i + 1, by simpa using Nat.succ_lt_succ hi, ?_, ?_, ?_, ?_, h5⟩
        · simpa using h1
        · intro j hj hji
          cases j with
          | zero => simp [attemptSucceeds, hc, hg]
          | succ j =>
            have hj2 : j < rest.length := by simpa using hj
            exact h2 j hj2 (by omega)
        · simpa using h3
        · simpa using h4
    | error e =>
      rw [hc] at h
      simp at h
      obtain ⟨i, hi, h1, h2, h3, h4, h5⟩ := ih h
      refine ⟨i + 1, by simpa using Nat.succ_lt_succ hi, ?_, ?_, ?_, ?_, h5⟩
      · simpa using h1
      · intro j hj hji
        cases j with
        | zero => simp [attemptSucceeds, hc]
        | succ j =>
          have hj2 : j < rest.length := by simpa using hj
          exact h2 j hj2 (by omega)
      · simpa using h3
      · simpa using h4

theorem handleChat_rejected (upstream : Upstream) (providers : List Provider)
    (counts : RequestCounts) (ip : String) (body : JsonVal) (startTime : Option Int)
    (now : Int) (nowIso : String) (h : counts ip > 60) :
    handleChat upstream providers counts ip body startTime now nowIso =
      (.rateLimited, counts, []) := by
  simp only [handleChat]
  rw [if_pos h]

theorem handleChat_admitted_increment (upstream : Upstream) (providers : List Provider)
    (counts : RequestCounts) (ip : String) (body : JsonVal) (startTime : Option Int)
    (now : Int) (nowIso : String) (h : counts ip ≤ 60) :
    chatAdmitted (handleChat upstream providers counts ip body startTime now nowIso).1 = true ∧
    (handleChat upstream providers counts ip body startTime now nowIso).2.1 =
      fun j => if j = ip then counts ip + 1 else counts j := by
  have hn : ¬ counts ip > 60 := by omega
  simp only [handleChat]
  rw [if_neg hn]
  repeat' split
  all_goals exact ⟨rfl, rfl⟩

theorem handleChat_success_eq (upstream : Upstream) (providers : List Provider)
    (counts : RequestCounts) (ip : String) (body : JsonVal) (startTime : Option Int)
    (now : Int) (nowIso : String) (m : String) (s : ChatSuccess)
    (hrate : counts ip ≤ 60)
    (hmsg : jsGetField body "message" = some (.str m))
    (hne : m ≠ "")
    (hlen : m.length ≤ 10000)
    (hnz : (sortedProviders providers).length ≠ 0)
    (hs : (tryLoop (fun p => callAIProvider upstream p m (historyArg body)) nowIso now
        startTime (sortedProviders providers)).1 = some s) :
    handleChat upstream providers counts ip body startTime now nowIso =
      (.success s, fun j => if j = ip then counts ip + 1 else counts j,
        (tryLoop (fun p => callAIProvider upstream p m (historyArg body)) nowIso now
          startTime (sortedProviders providers)).2) := by
  have hn : ¬ counts ip > 60 := by omega
  simp only [handleChat, hmsg]
  rw [if_neg hn]
  rw [if_neg hne, if_neg (show ¬ m.length > 10000 by omega), if_neg hnz, hs]

theorem handleChat_allFailed_eq (upstream : Upstream) (providers : List Provider)
    (counts : RequestCounts) (ip : String) (body : JsonVal) (startTime : Option Int)
    (now : Int) (nowIso : String) (m : String)
    (hrate : counts ip ≤ 60)
    (hmsg : jsGetField body "message" = some (.str m))
    (hne : m ≠ "")
    (hlen : m.length ≤ 10000)
    (hnz : (sortedProviders providers).length ≠ 0)
    (hs : (tryLoop (fun p => callAIProvider upstream p m (historyArg body)) nowIso now
        startTime (sortedProviders providers)).1 = none) :
    handleChat upstream providers counts ip body startTime now nowIso =
      (.allFailed ((sortedProviders providers).map (fun p => p.name)),
        fun j => if j = ip then counts ip + 1 else counts j,
        (tryLoop (fun p => callAIProvider upstream p m (historyArg body)) nowIso now
          startTime (sortedProviders providers)).2) := by
  have hn : ¬ counts ip > 60 := by omega
  simp only [handleChat, hmsg]
  rw [if_neg hn]
  rw [if_neg hne, if_neg (show ¬ m.length > 10000 by omega), if_neg hnz, hs]

theorem chatSeq_counts (upstream : Upstream) (providers : List Provider) (ip : String)
    (body : JsonVal) (startTime : Option Int) (now : Int) (nowIso : String) :
    ∀ n, n ≤ 61 →
      (chatSeq upstream providers ip body startTime now nowIso n).1 ip = n ∧
      (chatSeq upstream providers ip body startTime now nowIso n).2 = List.replicate n true := by
  intro n
  induction n with
  | zero => intro _; exact ⟨rfl, rfl⟩
  | succ k ih =>
    intro hk
    obtain ⟨hc, hv⟩ := ih (by omega)
    have h60 : (chatSeq upstream providers ip body startTime now nowIso k).1 ip ≤ 60 := by omega
    obtain ⟨ha, hinc⟩ := handleChat_admitted_increment upstream providers
      (chatSeq upstream providers ip body startTime now nowIso k).1 ip body startTime now nowIso h60
    simp only [chatSeq]
    constructor
    · rw [hinc]
      simp [hc]
    · rw [hv, ha, List.replicate_succ']

/-- C10: for every inbound chat request that is not rate-limit-rejected (the
current count of its client is at most 60), the rate counter of that client
is incremented by exactly one, whatever the request body is; in particular a
request whose message fails validation still consumes one unit of the window
budget, because the increment happens before validation runs. -/
theorem rate_counter_incremented_before_validation
    (upstream : Upstream) (providers : List Provider) (counts : RequestCounts)
    (ip : String) (body : JsonVal) (startTime : Option Int) (now : Int) (nowIso : String)
    (hrate : counts ip ≤ 60) :
    (handleChat upstream providers counts ip body startTime now nowIso).2.1 ip =
      counts ip + 1 := by
  rw [(handleChat_admitted_increment upstream providers counts ip body startTime now
    nowIso hrate).2]
  simp

/-- Witness for the C10 theorem: a request with a missing message (so it fails
validation) still moves the counter of its client from 0 to 1. -/
theorem rate_counter_incremented_before_validation_witness :
    emptyCounts "198.51.100.1" ≤ 60 ∧
    (handleChat downNet [] emptyCounts "198.51.100.1" (.obj []) none 0 "t").2.1
      "198.51.100.1" = emptyCounts "198.51.100.1" + 1 :=
  ⟨by decide, rate_counter_incremented_before_validation downNet [] emptyCounts
    "198.51.100.1" (.obj []) none 0 "t" (by decide)⟩

/-- C4 counterexample: starting from a cleared window, 61 successive requests
from one client are all admitted; in particular the 61st request of the
window is admitted, not rejected, because the route rejects only when the
stored count already exceeds 60. The provider list is empty and the network
unreachable; the admission step consults neither. -/
theorem sixty_first_request_admitted :
    (chatSeq downNet [] "203.0.113.7" (.obj []) none 0 "t" 61).2 =
      List.replicate 61 true :=
  (chatSeq_counts downNet [] "203.0.113.7" (.obj []) none 0 "t" 61 le_rfl).2

/-- C4 amended: within one 60-second window, requests 1 through 61 of a client
are admitted and request 62 is rejected with the 429 rate-limit outcome; the
rejection leaves the counter map unchanged and contacts no provider; after a
window reset (cleared map) the same client is admitted again and its counter
starts over at 1. -/
theorem rate_limit_admits_61_rejects_62
    (upstream : Upstream) (providers : List Provider) (ip : String) (body : JsonVal)
    (startTime : Option Int) (now : Int) (nowIso : String) :
    (chatSeq upstream providers ip body startTime now nowIso 61).2 =
      List.replicate 61 true ∧
    handleChat upstream providers
        (chatSeq upstream providers ip body startTime now nowIso 61).1 ip body
        startTime now nowIso =
      (.rateLimited, (chatSeq upstream providers ip body startTime now nowIso 61).1, []) ∧
    ChatOutcome.rateLimited.httpStatus = 429 ∧
    chatAdmitted (handleChat upstream providers emptyCounts ip body startTime now
      nowIso).1 = true ∧
    (handleChat upstream providers emptyCounts ip body startTime now nowIso).2.1 ip = 1 := by
  obtain ⟨hc, hv⟩ := chatSeq_counts upstream providers ip body startTime now nowIso 61 le_rfl
  refine ⟨hv, ?_, rfl, ?_, ?_⟩
  · exact handleChat_rejected upstream providers _ ip body startTime now nowIso (by omega)
  · exact (handleChat_admitted_increment upstream providers emptyCounts ip body startTime
      now nowIso (by simp [emptyCounts])).1
  · rw [(handleChat_admitted_increment upstream providers emptyCounts ip body startTime
      now nowIso (by simp [emptyCounts])).2]
    simp [emptyCounts]

/-- Witness for the amended C4 theorem at a concrete client address with an
empty provider list and unreachable network. -/
theorem rate_limit_admits_61_rejects_62_witness :
    (chatSeq downNet [] "198.51.100.7" (.obj []) none 0 "t" 61).2 =
      List.replicate 61 true ∧
    handleChat downNet [] (chatSeq downNet [] "198.51.100.7" (.obj []) none 0 "t" 61).1
        "198.51.100.7" (.obj []) none 0 "t" =
      (.rateLimited, (chatSeq downNet [] "198.51.100.7" (.obj []) none 0 "t" 61).1, []) ∧
    ChatOutcome.rateLimited.httpStatus = 429 ∧
    chatAdmitted (handleChat downNet [] emptyCounts "198.51.100.7" (.obj []) none 0
      "t").1 = true ∧
    (handleChat downNet [] emptyCounts "198.51.100.7" (.obj []) none 0 "t").2.1
      "198.51.100.7" = 1 :=
  rate_limit_admits_61_rejects_62 downNet [] "198.51.100.7" (.obj []) none 0 "t"

/-- C5: a provider attempt that returns without error but yields text of at
most 10 characters is treated as a failure: the loop on that provider
followed by the remaining providers produces the same result as the loop on
the remaining providers alone, with the short-answering provider recorded as
attempted, so its text is never returned as the success. -/
theorem short_response_triggers_failover
    (call : Provider → Except String (Option JsonVal)) (nowIso : String) (now : Int)
    (startTime : Option Int) (p : Provider) (rest : List Provider) (t : String)
    (hok : call p = .ok (some (.str t))) (hshort : t.length ≤ 10) :
    (tryLoop call nowIso now startTime (p :: rest)).1 =
      (tryLoop call nowIso now startTime rest).1 ∧
    (tryLoop call nowIso now startTime (p :: rest)).2 =
      p.name :: (tryLoop call nowIso now startTime rest).2 := by
  have hg : goodResponse (some (.str t)) = false := by
    simp [goodResponse, jsLength, show ¬ t.length > 10 from by omega]
  simp only [tryLoop, hok, hg]
  exact ⟨rfl, rfl⟩

/-- Witness for the C5 theorem: priority 1 answers with the five-character
text Hello, and the loop moves on to the next provider. -/
theorem short_response_triggers_failover_witness :
    shortCall groqProvider = .ok (some (.str "Hello")) ∧ "Hello".length ≤ 10 ∧
    ((tryLoop shortCall "t" 0 none (groqProvider :: [deepseekProvider])).1 =
        (tryLoop shortCall "t" 0 none [deepseekProvider]).1 ∧
      (tryLoop shortCall "t" 0 none (groqProvider :: [deepseekProvider])).2 =
        groqProvider.name :: (tryLoop shortCall "t" 0 none [deepseekProvider]).2) :=
  ⟨rfl, by decide, short_response_triggers_failover shortCall "t" 0 none groqProvider
    [deepseekProvider] "Hello" rfl (by decide)⟩

/-- C2: for a valid non-empty message of at most 10000 characters, not
rate-limited, with at least one provider of the sorted eligible list whose
attempt succeeds, the route returns a success whose provider name is the
first succeeding entry of that list: every earlier entry fails and every
succeeding entry has priority at least that of the winner. The sorted
eligible list is ascending by priority, is a permutation of the eligible
filter of the configuration, and preserves configuration order inside each
priority class. -/
theorem success_provider_is_highest_priority
    (upstream : Upstream) (providers : List Provider) (counts : RequestCounts)
    (ip : String) (body : JsonVal) (startTime : Option Int) (now : Int) (nowIso : String)
    (m : String)
    (hrate : counts ip ≤ 60)
    (hmsg : jsGetField body "message" = some (.str m))
    (hne : m ≠ "")
    (hlen : m.length ≤ 10000)
    (hsucc : ∃ p ∈ sortedProviders providers,
      attemptSucceeds (fun q => callAIProvider upstream q m (historyArg body)) p = true) :
    List.Pairwise (fun a b => a.priority ≤ b.priority) (sortedProviders providers) ∧
    List.Perm (sortedProviders providers) (providers.filter eligible) ∧
    (∀ v : Nat, (sortedProviders providers).filter (fun q => q.priority == v) =
      (providers.filter eligible).filter (fun q => q.priority == v)) ∧
    ∃ s : ChatSuccess, ∃ i : Nat, ∃ hi : i < (sortedProviders providers).length,
      (handleChat upstream providers counts ip body startTime now nowIso).1 = .success s ∧
      s.provider = ((sortedProviders providers).get ⟨i, hi⟩).name ∧
      attemptSucceeds (fun q => callAIProvider upstream q m (historyArg body))
        ((sortedProviders providers).get ⟨i, hi⟩) = true ∧
      (∀ j, ∀ hj : j < (sortedProviders providers).length, j < i →
        attemptSucceeds (fun q => callAIProvider upstream q m (historyArg body))
          ((sortedProviders providers).get ⟨j, hj⟩) = false) ∧
      (∀ q ∈ sortedProviders providers,
        attemptSucceeds (fun q2 => callAIProvider upstream q2 m (historyArg body)) q = true →
        ((sortedProviders providers).get ⟨i, hi⟩).priority ≤ q.priority) := by
  obtain ⟨p0, hp0, hp0s⟩ := hsucc
  have hnz : (sortedProviders providers).length ≠ 0 := by
    intro h0
    rw [List.length_eq_zero] at h0
    rw [h0] at hp0
    exact absurd hp0 (List.not_mem_nil p0)
  refine ⟨sortByPriority_pairwise _, sortByPriority_perm _,
    fun v => filter_sortByPriority _ v, ?_⟩
  cases hs : (tryLoop (fun q => callAIProvider upstream q m (historyArg body)) nowIso now
      startTime (sortedProviders providers)).1 with
  | none =>
    exfalso
    have hall := tryLoop_none_iff.mp hs p0 hp0
    rw [hp0s] at hall
    cases hall
  | some s =>
    have hhc := handleChat_success_eq upstream providers counts ip body startTime now
      nowIso m s hrate hmsg hne hlen hnz hs
    obtain ⟨i, hi, h1, h2, h3, h4, h5⟩ := tryLoop_some hs
    refine ⟨s, i, hi, ?_, h3, h1, h2, ?_⟩
    · rw [hhc]
    · intro q hq hqs
      obtain ⟨⟨j, hj⟩, hjq⟩ := List.get_of_mem hq
      rcases Nat.lt_trichotomy j i with hlt | heq | hgt
      · exfalso
        have hf := h2 j hj hlt
        rw [hjq, hqs] at hf
        cases hf
      · subst heq
        rw [← hjq]
      · have hp : ((sortedProviders providers).get ⟨i, hi⟩).priority ≤
            ((sortedProviders providers).get ⟨j, hj⟩).priority :=
          (List.pairwise_iff_get.mp (sortByPriority_pairwise
            (providers.filter eligible))) ⟨i, hi⟩ ⟨j, hj⟩ (by simpa using hgt)
        rw [hjq] at hp
        exact hp

/-- Witness for the C2 theorem: with all four credentials set, the three
chat-completion providers answer HTTP 500 and the generic-text provider
succeeds, so the winning provider is the one of priority 4. -/
theorem success_provider_is_highest_priority_witness :
    emptyCounts "192.0.2.2" ≤ 60 ∧
    jsGetField helloBody "message" = some (.str "Hello JARVIS") ∧
    "Hello JARVIS" ≠ "" ∧
    "Hello JARVIS".length ≤ 10000 ∧
    (∃ p ∈ sortedProviders demoProviders,
      attemptSucceeds (fun q => callAIProvider mixedNet q "Hello JARVIS"
        (historyArg helloBody)) p = true) ∧
    (List.Pairwise (fun a b => a.priority ≤ b.priority) (sortedProviders demoProviders) ∧
    List.Perm (sortedProviders demoProviders) (demoProviders.filter eligible) ∧
    (∀ v : Nat, (sortedProviders demoProviders).filter (fun q => q.priority == v) =
      (demoProviders.filter eligible).filter (fun q => q.priority == v)) ∧
    ∃ s : ChatSuccess, ∃ i : Nat, ∃ hi : i < (sortedProviders demoProviders).length,
      (handleChat mixedNet demoProviders emptyCounts "192.0.2.2" helloBody none 0 "t").1 =
        .success s ∧
      s.provider = ((sortedProviders demoProviders).get ⟨i, hi⟩).name ∧
      attemptSucceeds (fun q => callAIProvider mixedNet q "Hello JARVIS"
        (historyArg helloBody)) ((sortedProviders demoProviders).get ⟨i, hi⟩) = true ∧
      (∀ j, ∀ hj : j < (sortedProviders demoProviders).length, j < i →
        attemptSucceeds (fun q => callAIProvider mixedNet q "Hello JARVIS"
          (historyArg helloBody)) ((sortedProviders demoProviders).get ⟨j, hj⟩) = false) ∧
      (∀ q ∈ sortedProviders demoProviders,
        attemptSucceeds (fun q2 => callAIProvider mixedNet q2 "Hello JARVIS"
          (historyArg helloBody)) q = true →
        ((sortedProviders demoProviders).get ⟨i, hi⟩).priority ≤ q.priority)) :=
  ⟨by decide, rfl, by decide, by decide, by decide,
    success_provider_is_highest_priority mixedNet demoProviders emptyCounts "192.0.2.2"
      helloBody none 0 "t" "Hello JARVIS" (by decide) rfl (by decide) (by decide) (by decide)⟩

/-- C8: when the sorted eligible list is nonempty and every attempt fails,
the route answers 503 with the allFailed outcome: providers_tried lists the
name of every provider attempted (all of them), and the serialized body holds
only the two fixed generic strings plus those names; the individual error
strings of the failed attempts occur nowhere in the outcome. -/
theorem all_failed_aggregate_response
    (upstream : Upstream) (providers : List Provider) (counts : RequestCounts)
    (ip : String) (body : JsonVal) (startTime : Option Int) (now : Int) (nowIso : String)
    (m : String)
    (hrate : counts ip ≤ 60)
    (hmsg : jsGetField body "message" = some (.str m))
    (hne : m ≠ "")
    (hlen : m.length ≤ 10000)
    (hnz : (sortedProviders providers).length ≠ 0)
    (hfail : ∀ p ∈ sortedProviders providers,
      attemptSucceeds (fun q => callAIProvider upstream q m (historyArg body)) p = false) :
    (handleChat upstream providers counts ip body startTime now nowIso).1 =
      .allFailed ((sortedProviders providers).map (fun p => p.name)) ∧
    (handleChat upstream providers counts ip body startTime now nowIso).2.2 =
      (sortedProviders providers).map (fun p => p.name) ∧
    (handleChat upstream providers counts ip body startTime now nowIso).1.httpStatus = 503 ∧
    (handleChat upstream providers counts ip body startTime now nowIso).1.responseBodyJson =
      .obj [("error", .str "All AI providers are currently unavailable"),
        ("message", .str "Please try again in a moment. If the issue persists, contact support."),
        ("providers_tried", .arr (((sortedProviders providers).map (fun p => p.name)).map
          (fun n => .str n)))] := by
  have hs : (tryLoop (fun q => callAIProvider upstream q m (historyArg body)) nowIso now
      startTime (sortedProviders providers)).1 = none := tryLoop_none_iff.mpr hfail
  have hhc := handleChat_allFailed_eq upstream providers counts ip body startTime now
    nowIso m hrate hmsg hne hlen hnz hs
  have hatt := tryLoop_attempted_of_none hs
  rw [hhc]
  exact ⟨rfl, hatt, rfl, rfl⟩

/-- Witness for the C8 theorem: all four providers eligible, every attempt
answers HTTP 500, the route returns the aggregate 503 with all four names. -/
theorem all_failed_aggregate_response_witness :
    emptyCounts "192.0.2.3" ≤ 60 ∧
    jsGetField helloBody "message" = some (.str "Hello JARVIS") ∧
    "Hello JARVIS" ≠ "" ∧
    "Hello JARVIS".length ≤ 10000 ∧
    (sortedProviders demoProviders).length ≠ 0 ∧
    (∀ p ∈ sortedProviders demoProviders,
      attemptSucceeds (fun q => callAIProvider allFailNet q "Hello JARVIS"
        (historyArg helloBody)) p = false) ∧
    ((handleChat allFailNet demoProviders emptyCounts "192.0.2.3" helloBody none 0 "t").1 =
      .allFailed ((sortedProviders demoProviders).map (fun p => p.name)) ∧
    (handleChat allFailNet demoProviders emptyCounts "192.0.2.3" helloBody none 0 "t").2.2 =
      (sortedProviders demoProviders).map (fun p => p.name) ∧
    (handleChat allFailNet demoProviders emptyCounts "192.0.2.3" helloBody none 0
      "t").1.httpStatus = 503 ∧
    (handleChat allFailNet demoProviders emptyCounts "192.0.2.3" helloBody none 0
      "t").1.responseBodyJson =
      .obj [("error", .str "All AI providers are currently unavailable"),
        ("message", .str "Please try again in a moment. If the issue persists, contact support."),
        ("providers_tried", .arr (((sortedProviders demoProviders).map (fun p => p.name)).map
          (fun n => .str n)))]) :=
  ⟨by decide, rfl, by decide, by decide, by decide, by decide,
    all_failed_aggregate_response allFailNet demoProviders emptyCounts "192.0.2.3"
      helloBody none 0 "t" "Hello JARVIS" (by decide) rfl (by decide) (by decide)
      (by decide) (by decide)⟩

/-- C3 counterexample: a message consisting of one space character is
whitespace only, hence empty after trimming, yet the route does not return a
400 validation error: it calls the eligible provider (one upstream call is
recorded) and returns 200, because the validation tests only !message, which
does not trim. -/
theorem whitespace_message_reaches_provider :
    (handleChat hfSuccessNet hfOnlyConfig emptyCounts "192.0.2.9" spaceBody none 0
      "t").1.httpStatus = 200 ∧
    (handleChat hfSuccessNet hfOnlyConfig emptyCounts "192.0.2.9" spaceBody none 0
      "t").2.2 = ["HuggingFace-Backup"] :=
  ⟨rfl, rfl⟩

/-- C3 amended: for every request that is not rate-limited and whose message
is missing, not a string, the empty string, or longer than 10000 characters,
the route returns a 400 validation error and no provider is called. A
whitespace-only non-empty message is not rejected: the source tests !message
without trimming. -/
theorem invalid_message_rejected_without_provider_calls
    (upstream : Upstream) (providers : List Provider) (counts : RequestCounts)
    (ip : String) (body : JsonVal) (startTime : Option Int) (now : Int) (nowIso : String)
    (hrate : counts ip ≤ 60)
    (hbad : isStringMessage (jsGetField body "message") = false ∨
      jsGetField body "message" = some (.str "") ∨
      (∃ m, jsGetField body "message" = some (.str m) ∧ m.length > 10000)) :
    (handleChat upstream providers counts ip body startTime now nowIso).1.httpStatus = 400 ∧
    (handleChat upstream providers counts ip body startTime now nowIso).2.2 = [] := by
  have hn : ¬ counts ip > 60 := by omega
  rcases hbad with hb | hb | ⟨m, hm, hlong⟩
  · simp only [handleChat]
    rw [if_neg hn]
    rcases hmv : jsGetField body "message" with _ | v
    · exact ⟨rfl, rfl⟩
    · cases v with
      | str s => rw [hmv] at hb; simp [isStringMessage] at hb
      | null => exact ⟨rfl, rfl⟩
      | bool b => exact ⟨rfl, rfl⟩
      | num q => exact ⟨rfl, rfl⟩
      | arr xs => exact ⟨rfl, rfl⟩
      | obj fields => exact ⟨rfl, rfl⟩
  · simp only [handleChat, hb]
    rw [if_neg hn, if_pos trivial]
    exact ⟨rfl, rfl⟩
  · simp only [handleChat, hm]
    rw [if_neg hn]
    by_cases hz : m = ""
    · rw [if_pos hz]
      exact ⟨rfl, rfl⟩
    · rw [if_neg hz, if_pos hlong]
      exact ⟨rfl, rfl⟩

/-- Witness for the amended C3 theorem: a request whose message field is a
number gets a 400 and no provider call, although the network and providers
were available. -/
theorem invalid_message_rejected_without_provider_calls_witness :
    emptyCounts "192.0.2.10" ≤ 60 ∧
    (isStringMessage (jsGetField numericBody "message") = false ∨
      jsGetField numericBody "message" = some (.str "") ∨
      (∃ m, jsGetField numericBody "message" = some (.str m) ∧ m.length > 10000)) ∧
    ((handleChat hfSuccessNet hfOnlyConfig emptyCounts "192.0.2.10" numericBody none 0
      "t").1.httpStatus = 400 ∧
    (handleChat hfSuccessNet hfOnlyConfig emptyCounts "192.0.2.10" numericBody none 0
      "t").2.2 = []) :=
  ⟨by decide, Or.inl rfl,
    invalid_message_rejected_without_provider_calls hfSuccessNet hfOnlyConfig emptyCounts
      "192.0.2.10" numericBody none 0 "t" (by decide) (Or.inl rfl)⟩

/-- C6: for caller-supplied history longer than 6 turns, the outbound message
list built for a chat-completion provider is exactly the system prompt, the
last 6 turns in their order, and the current user message; the request body
carries exactly that list under its messages key, and every element of the
outbound list is one of those values, so the 7th-from-last turn and earlier
turns do not occur in the payload. -/
theorem history_truncated_to_last_six (upstream : Upstream) (p : Provider) (m : String)
    (history : List JsonVal) (h6 : 6 < history.length) :
    callAIProvider upstream p m (.arr history) =
      dispatchProvider upstream p m (outboundMessages history m) ∧
    outboundMessages history m =
      jarvisSystemMessage :: (history.drop (history.length - 6) ++ [userMessage m]) ∧
    (history.drop (history.length - 6)).length = 6 ∧
    jsGetField (openAIRequestBody p (outboundMessages history m)) "messages" =
      some (.arr (outboundMessages history m)) ∧
    (∀ x ∈ outboundMessages history m,
      x = jarvisSystemMessage ∨ x ∈ history.drop (history.length - 6) ∨
        x = userMessage m) := by
  refine ⟨rfl, rfl, ?_, ?_, ?_⟩
  · rw [List.length_drop]
    omega
  · simp only [openAIRequestBody, jsGetField]
    cases p.model
    · rfl
    · rfl
  · intro x hx
    simp only [outboundMessages, List.mem_cons, List.mem_append,
      List.mem_singleton] at hx
    tauto

/-- Witness for the C6 theorem at a seven-turn history: the first turn is
dropped and the last six are kept. -/
theorem history_truncated_to_last_six_witness :
    6 < sevenTurns.length ∧
    (callAIProvider downNet groqProvider "Hello" (.arr sevenTurns) =
      dispatchProvider downNet groqProvider "Hello" (outboundMessages sevenTurns "Hello") ∧
    outboundMessages sevenTurns "Hello" =
      jarvisSystemMessage :: (sevenTurns.drop (sevenTurns.length - 6) ++
        [userMessage "Hello"]) ∧
    (sevenTurns.drop (sevenTurns.length - 6)).length = 6 ∧
    jsGetField (openAIRequestBody groqProvider (outboundMessages sevenTurns "Hello"))
        "messages" =
      some (.arr (outboundMessages sevenTurns "Hello")) ∧
    (∀ x ∈ outboundMessages sevenTurns "Hello",
      x = jarvisSystemMessage ∨ x ∈ sevenTurns.drop (sevenTurns.length - 6) ∨
        x = userMessage "Hello")) :=
  ⟨by decide,
    history_truncated_to_last_six downNet groqProvider "Hello" sevenTurns (by decide)⟩

/-- C1: the chat-completion parser is handed the valid body
choices[0].message.content = Hello there, how can I help? over HTTP 200, and
instead of returning that content it raises the invalid-format ProviderError,
because the source reads data.choices.message instead of
data.choices[0].message; consequently, in the two-provider scenario where
priority 1 answers 503 and priority 2 answers that valid body, the route
returns the 503 allFailed response instead of the claimed success. -/
theorem openai_parser_rejects_valid_choices_body :
    callOpenAICompatible deepseekProvider []
        (fun _ => .ok ⟨200, some sampleChoicesBody, ""⟩) =
      .error "Invalid response format from DeepSeek-Intelligence" ∧
    (handleChat failoverScenarioNet twoProviderConfig emptyCounts "192.0.2.1" helloBody
      none 0 "t").1 = .allFailed ["Groq-Ultra-Fast", "DeepSeek-Intelligence"] ∧
    (handleChat failoverScenarioNet twoProviderConfig emptyCounts "192.0.2.1" helloBody
      none 0 "t").1.httpStatus = 503 :=
  ⟨rfl, rfl, rfl⟩

/-- C7: over HTTP 200 the generic-text parser raises the invalid-format
ProviderError on the single-element list body, because the source reads
generated_text from the array instead of from its first element; the
bare-object body does return its generated_text, and an error body raises a
ProviderError carrying that message. -/
theorem huggingface_parser_rejects_array_body :
    callHuggingFace hfProvider "hi"
        (fun _ => .ok ⟨200, some (.arr [.obj [("generated_text",
          .str "Hello there friend!")]]), ""⟩) =
      .error "Invalid HuggingFace response format" ∧
    callHuggingFace hfProvider "hi"
        (fun _ => .ok ⟨200, some (.obj [("generated_text",
          .str "Hello there friend!")]), ""⟩) =
      .ok (some (.str "Hello there friend!")) ∧
    callHuggingFace hfProvider "hi"
        (fun _ => .ok ⟨200, some (.obj [("error", .str "model loading")]), ""⟩) =
      .error "HuggingFace error: model loading" :=
  ⟨rfl, rfl, rfl⟩

/-- C9: the startTime middleware is registered after the chat route, so
express never runs it for POST /api/chat: the dispatch always reaches the
route with startTime unset, and a successful response carries
processing_time_ms = null (NaN serialized), not an integer elapsed time. -/
theorem processing_time_is_null :
    (∀ (upstream : Upstream) (providers : List Provider) (counts : RequestCounts)
      (ip : String) (body : JsonVal) (now : Int) (nowIso : String),
      dispatchChat upstream providers counts ip body now nowIso none appHandlers =
        some (handleChat upstream providers counts ip body none now nowIso)) ∧
    (dispatchChat hfSuccessNet hfOnlyConfig emptyCounts "192.0.2.5" helloBody 42
        "2025-01-01T00:00:00.000Z" none appHandlers).map (fun r => r.1) =
      some (.success
        ⟨.str "All systems operational, sir.", "HuggingFace-Backup", "Unknown",
          "2025-01-01T00:00:00.000Z", none⟩) ∧
    jsGetField (ChatOutcome.responseBodyJson (.success
        ⟨.str "All systems operational, sir.", "HuggingFace-Backup", "Unknown",
          "2025-01-01T00:00:00.000Z", none⟩))
        "processing_time_ms" =
      some .null :=
  ⟨fun _ _ _ _ _ _ _ => rfl, rfl, rfl⟩

end Jarvis
